import Mathlib

set_option linter.unusedVariables false

/-
  Verification of the focus-adaptive ambient-audio controller
  (demos-main/audio/sketch4: script.js and thing.js).

  JS numbers are modelled as rationals (ℚ); integer-valued score
  arithmetic is modelled on ℤ.  JS objects used as string-keyed maps
  are modelled as association lists in insertion order.
-/

namespace Sketch4

/-- JS Math.round: round half toward positive infinity. -/
def jsRound (q : ℚ) : ℤ := ⌊q + 1/2⌋

/-- clamp from ixfx numbers: min(max(v, lo), hi), on rationals. -/
def clamp (v lo hi : ℚ) : ℚ := min (max v lo) hi

/-- clamp specialised to the integer-valued scores. -/
def clampInt (v lo hi : ℤ) : ℤ := min (max v lo) hi

/-- calculateVariance from script.js: population variance of the buffer,
0 for an empty buffer.  The mean is the sum divided by the length. -/
def calculateVariance (arr : List ℚ) : ℚ :=
  if arr.length = 0 then 0
  else
    let mean := arr.sum / (arr.length : ℚ)
    (arr.map (fun v => (v - mean) ^ 2)).sum / (arr.length : ℚ)

/-- settings.steadyThreshold from script.js. -/
def steadyThreshold : ℚ := 0.2

/-- Result record of detectFocus. -/
structure FocusMetrics where
  focusLevel : ℚ
  isEngaged : Bool
  isSteady : Bool
  isMonotonous : Bool
deriving DecidableEq, Repr

/-- detectFocus from script.js: classify focus from the loudness and
centroid history buffers and the current normalised values. -/
def detectFocus (loudnessHistory centroidHistory : List ℚ)
    (currentLoudness currentCentroid : ℚ) : FocusMetrics :=
  if loudnessHistory.length < 3 then
    { focusLevel := 0.5, isEngaged := false, isSteady := false, isMonotonous := false }
  else
    let loudnessVariance := calculateVariance loudnessHistory
    let centroidVariance := calculateVariance centroidHistory
    let isSteady : Bool :=
      decide (loudnessVariance < steadyThreshold) && decide (centroidVariance < steadyThreshold)
    let loudnessEngagement : Bool :=
      decide (currentLoudness > 0.05) && decide (currentLoudness < 0.85)
    let isMonotonous : Bool :=
      decide (loudnessVariance < 0.05) && decide (centroidVariance < 0.05)
    let focusLevel : ℚ :=
      if isSteady && loudnessEngagement then 0.8
      else if loudnessEngagement then 0.6
      else 0.3
    let isEngaged : Bool := loudnessEngagement && !isMonotonous
    { focusLevel := focusLevel, isEngaged := isEngaged,
      isSteady := isSteady, isMonotonous := isMonotonous }

/-- settings for the exponential moving average of the baselines
(emaAlpha from update in script.js). -/
def emaAlpha : ℚ := 0.05

/-- One EMA step of the baseline adapter, as in update in script.js:
previous * (1 - emaAlpha) + sample * emaAlpha. -/
def updateBaseline (previous sample : ℚ) : ℚ :=
  previous * (1 - emaAlpha) + sample * emaAlpha

/-- Iterate the baseline adapter over a sequence of samples. -/
def runBaseline (b0 : ℚ) (samples : List ℚ) : ℚ :=
  samples.foldl updateBaseline b0

end Sketch4

namespace Sketch4

/-- C7: with fewer than 3 loudness samples, detectFocus returns the fixed
default classification regardless of the buffer contents and of the
current loudness and centroid values. -/
theorem C7_default_classification
    (loudnessHistory centroidHistory : List ℚ) (currentLoudness currentCentroid : ℚ)
    (h : loudnessHistory.length < 3) :
    detectFocus loudnessHistory centroidHistory currentLoudness currentCentroid =
      { focusLevel := 0.5, isEngaged := false, isSteady := false, isMonotonous := false } := by
  unfold detectFocus
  rw [if_pos h]

/-- Witness for C7 at a concrete short buffer. -/
theorem C7_default_classification_witness :
    ([(0.9 : ℚ), 0.9].length < 3) ∧
    detectFocus [(0.9 : ℚ), 0.9] [0.1, 0.2] 0.5 0.5 =
      { focusLevel := 0.5, isEngaged := false, isSteady := false, isMonotonous := false } :=
  ⟨by decide, C7_default_classification [(0.9 : ℚ), 0.9] [0.1, 0.2] 0.5 0.5 (by decide)⟩

/-- C3: with at least 3 loudness samples, detectFocus returns
focusLevel 0.8 when steady and in the loudness-engagement band,
0.6 when only in the band, 0.3 otherwise, where the band is
0.05 < currentLoudness < 0.85; and the instantaneous isEngaged output is
the band test AND NOT isMonotonous. -/
theorem C3_focus_classifier
    (loudnessHistory centroidHistory : List ℚ) (currentLoudness currentCentroid : ℚ)
    (h : 3 ≤ loudnessHistory.length) :
    (detectFocus loudnessHistory centroidHistory currentLoudness currentCentroid).focusLevel =
      (if (detectFocus loudnessHistory centroidHistory currentLoudness currentCentroid).isSteady &&
          (decide (currentLoudness > 0.05) && decide (currentLoudness < 0.85)) then (0.8 : ℚ)
       else if decide (currentLoudness > 0.05) && decide (currentLoudness < 0.85) then 0.6
       else 0.3) ∧
    (detectFocus loudnessHistory centroidHistory currentLoudness currentCentroid).isEngaged =
      ((decide (currentLoudness > 0.05) && decide (currentLoudness < 0.85)) &&
        !(detectFocus loudnessHistory centroidHistory currentLoudness currentCentroid).isMonotonous) := by
  unfold detectFocus
  rw [if_neg (by omega)]
  exact ⟨rfl, rfl⟩

/-- Witness for C3 at a concrete steady, engaged input. -/
theorem C3_focus_classifier_witness :
    (3 ≤ [(0.5 : ℚ), 0.5, 0.5].length) ∧
    ((detectFocus [(0.5 : ℚ), 0.5, 0.5] [0.3, 0.3, 0.3] 0.5 0.3).focusLevel =
      (if (detectFocus [(0.5 : ℚ), 0.5, 0.5] [0.3, 0.3, 0.3] 0.5 0.3).isSteady &&
          (decide ((0.5 : ℚ) > 0.05) && decide ((0.5 : ℚ) < 0.85)) then (0.8 : ℚ)
       else if decide ((0.5 : ℚ) > 0.05) && decide ((0.5 : ℚ) < 0.85) then 0.6
       else 0.3) ∧
    (detectFocus [(0.5 : ℚ), 0.5, 0.5] [0.3, 0.3, 0.3] 0.5 0.3).isEngaged =
      ((decide ((0.5 : ℚ) > 0.05) && decide ((0.5 : ℚ) < 0.85)) &&
        !(detectFocus [(0.5 : ℚ), 0.5, 0.5] [0.3, 0.3, 0.3] 0.5 0.3).isMonotonous)) :=
  ⟨by decide, C3_focus_classifier [(0.5 : ℚ), 0.5, 0.5] [0.3, 0.3, 0.3] 0.5 0.3 (by decide)⟩

/-- C10: with at least 3 loudness samples, a monotonous classification is
always also steady, because the monotony variance bound 0.05 is strictly
tighter than steadyThreshold = 0.2. -/
theorem C10_monotonous_implies_steady
    (loudnessHistory centroidHistory : List ℚ) (currentLoudness currentCentroid : ℚ)
    (h : 3 ≤ loudnessHistory.length)
    (hm : (detectFocus loudnessHistory centroidHistory currentLoudness currentCentroid).isMonotonous = true) :
    (detectFocus loudnessHistory centroidHistory currentLoudness currentCentroid).isSteady = true := by
  unfold detectFocus at hm ⊢
  rw [if_neg (by omega)] at hm ⊢
  simp only [Bool.and_eq_true, decide_eq_true_eq] at hm ⊢
  have h02 : (0.05 : ℚ) < steadyThreshold := by norm_num [steadyThreshold]
  exact ⟨lt_trans hm.1 h02, lt_trans hm.2 h02⟩

/-- Witness for C10 at a concrete constant buffer (variance 0). -/
theorem C10_monotonous_implies_steady_witness :
    (detectFocus [(0.5 : ℚ), 0.5, 0.5] [0.3, 0.3, 0.3] 0.5 0.3).isSteady = true :=
  C10_monotonous_implies_steady [(0.5 : ℚ), 0.5, 0.5] [0.3, 0.3, 0.3] 0.5 0.3
    (by decide) (by norm_num [detectFocus, calculateVariance, steadyThreshold])

end Sketch4

namespace Sketch4

/-- Helper for C9: the variance of a constant buffer of length at least 1
is exactly 0. -/
lemma calculateVariance_replicate (n : ℕ) (c : ℚ) (hn : 1 ≤ n) :
    calculateVariance (List.replicate n c) = 0 := by
  have hn0 : (n : ℚ) ≠ 0 := Nat.cast_ne_zero.mpr (by omega)
  unfold calculateVariance
  rw [if_neg (by simp; omega)]
  have hmean : (List.replicate n c).sum / ((List.replicate n c).length : ℚ) = c := by
    simp [List.sum_replicate, nsmul_eq_mul]
    exact mul_div_cancel_left₀ c hn0
  rw [hmean]
  simp [List.map_replicate, List.sum_replicate]

/-- C9: calculateVariance returns 0 on an empty buffer, the population
variance (sum of squared deviations from the mean, divided by N) on a
non-empty buffer, and exactly 0 on a constant buffer of any length ≥ 1. -/
theorem C9_variance_population (arr : List ℚ) (n : ℕ) (c : ℚ)
    (h1 : arr ≠ []) (h2 : 1 ≤ n) :
    calculateVariance [] = 0 ∧
    calculateVariance arr =
      (arr.map (fun v => (v - arr.sum / (arr.length : ℚ)) ^ 2)).sum / (arr.length : ℚ) ∧
    calculateVariance (List.replicate n c) = 0 := by
  refine ⟨rfl, ?_, calculateVariance_replicate n c h2⟩
  unfold calculateVariance
  rw [if_neg (by simpa using h1)]

/-- Witness for C9 at a concrete buffer and a concrete constant buffer. -/
theorem C9_variance_population_witness :
    ([(1 : ℚ), 2] ≠ []) ∧ (1 ≤ 3) ∧
    (calculateVariance [] = 0 ∧
     calculateVariance [(1 : ℚ), 2] =
       (([(1 : ℚ), 2]).map
         (fun v => (v - ([(1 : ℚ), 2]).sum / (([(1 : ℚ), 2]).length : ℚ)) ^ 2)).sum /
         (([(1 : ℚ), 2]).length : ℚ) ∧
     calculateVariance (List.replicate 3 (5 : ℚ)) = 0) :=
  ⟨by simp, by omega, C9_variance_population [(1 : ℚ), 2] 3 5 (by simp) (by omega)⟩

/-- Helper for C8: one EMA step stays in the unit interval. -/
lemma updateBaseline_mem_unit (b x : ℚ) (hb0 : 0 ≤ b) (hb1 : b ≤ 1)
    (hx0 : 0 ≤ x) (hx1 : x ≤ 1) :
    0 ≤ updateBaseline b x ∧ updateBaseline b x ≤ 1 := by
  unfold updateBaseline emaAlpha
  constructor <;> nlinarith

/-- Helper for C8: the folded baseline stays in the unit interval. -/
lemma runBaseline_mem_unit (samples : List ℚ) : ∀ b0 : ℚ, 0 ≤ b0 → b0 ≤ 1 →
    (∀ x ∈ samples, 0 ≤ x ∧ x ≤ 1) →
    0 ≤ runBaseline b0 samples ∧ runBaseline b0 samples ≤ 1 := by
  induction samples with
  | nil => exact fun b0 h0 h1 _ => ⟨h0, h1⟩
  | cons x xs ih =>
    intro b0 h0 h1 hs
    have hx := hs x (List.mem_cons_self x xs)
    have hstep := updateBaseline_mem_unit b0 x h0 h1 hx.1 hx.2
    exact ih (updateBaseline b0 x) hstep.1 hstep.2
      (fun y hy => hs y (List.mem_cons_of_mem x hy))

/-- C8: the baseline adapter computes previous*(1-alpha) + sample*alpha
with alpha = 0.05, and for every starting baseline in [0,1] and every
sequence of samples in [0,1] the folded baseline stays in [0,1]. -/
theorem C8_baseline_bounded (b0 : ℚ) (samples : List ℚ)
    (hb0 : 0 ≤ b0) (hb1 : b0 ≤ 1) (hs : ∀ x ∈ samples, 0 ≤ x ∧ x ≤ 1) :
    (∀ p s : ℚ, updateBaseline p s = p * (1 - 0.05) + s * 0.05) ∧
    0 ≤ runBaseline b0 samples ∧ runBaseline b0 samples ≤ 1 :=
  ⟨fun p s => rfl, runBaseline_mem_unit samples b0 hb0 hb1 hs⟩

/-- Witness for C8 at the seed 0.1 and a concrete sample sequence. -/
theorem C8_baseline_bounded_witness :
    ((0 : ℚ) ≤ 0.1) ∧ ((0.1 : ℚ) ≤ 1) ∧
    ((∀ p s : ℚ, updateBaseline p s = p * (1 - 0.05) + s * 0.05) ∧
     0 ≤ runBaseline 0.1 [0.5, 1, 0] ∧ runBaseline 0.1 [0.5, 1, 0] ≤ 1) :=
  ⟨by norm_num, by norm_num,
   C8_baseline_bounded 0.1 [0.5, 1, 0] (by norm_num) (by norm_num)
     (by intro x hx; fin_cases hx <;> norm_num)⟩

end Sketch4

namespace Sketch4

/-- Engagement tuning settings from script.js
(engagementGraceMs and engageRequireMs). -/
structure EngSettings where
  engagementGraceMs : ℚ
  engageRequireMs : ℚ
deriving DecidableEq, Repr

/-- The default engagement settings of the sketch:
grace 1000 ms, require 200 ms. -/
def defaultEngSettings : EngSettings :=
  { engagementGraceMs := 1000, engageRequireMs := 200 }

/-- Session-local engagement tracking state from script.js:
state.isEngaged, the previous tick value of state.isDrawing, and the
module-level timestamps lastDrawingTrue, lastDrawingFalse,
engagedSince. -/
structure EngState where
  isEngaged : Bool
  wasDrawing : Bool
  lastDrawingTrue : ℚ
  lastDrawingFalse : ℚ
  engagedSince : ℚ
deriving DecidableEq, Repr

/-- Initial engagement state: not engaged, not drawing, all
timestamps 0. -/
def engInit : EngState :=
  { isEngaged := false, wasDrawing := false,
    lastDrawingTrue := 0, lastDrawingFalse := 0, engagedSince := 0 }

/-- Updated lastDrawingTrue timestamp: refreshed when isDrawing has just
become true this tick. -/
def engLastTrue (s : EngState) (now : ℚ) (d : Bool) : ℚ :=
  if d && !s.wasDrawing then now else s.lastDrawingTrue

/-- Updated lastDrawingFalse timestamp: refreshed when isDrawing has
just become false this tick. -/
def engLastFalse (s : EngState) (now : ℚ) (d : Bool) : ℚ :=
  if !d && s.wasDrawing then now else s.lastDrawingFalse

/-- The engagement bit computed by update in script.js: when not yet
engaged, engage iff drawing and at most engageRequireMs since drawing
became true; when engaged, stay while drawing, else stay within
engagementGraceMs of drawing having stopped. -/
def engEngaged (cfg : EngSettings) (s : EngState) (now : ℚ) (d : Bool) : Bool :=
  if !s.isEngaged then
    if d then decide (now - engLastTrue s now d ≤ cfg.engageRequireMs) else false
  else
    if d then true else decide (now - engLastFalse s now d ≤ cfg.engagementGraceMs)

/-- Updated engagedSince timestamp, as in update in script.js. -/
def engSince (cfg : EngSettings) (s : EngState) (now : ℚ) (d : Bool) : ℚ :=
  if !s.isEngaged then
    if d && decide (now - engLastTrue s now d ≤ cfg.engageRequireMs) then now
    else s.engagedSince
  else
    if !d && !(decide (now - engLastFalse s now d ≤ cfg.engagementGraceMs)) then 0
    else s.engagedSince

/-- One tick of the engagement logic of update in script.js, given the
current time and the isDrawing value computed this tick. -/
def engStep (cfg : EngSettings) (s : EngState) (now : ℚ) (d : Bool) : EngState :=
  { isEngaged := engEngaged cfg s now d
    wasDrawing := d
    lastDrawingTrue := engLastTrue s now d
    lastDrawingFalse := engLastFalse s now d
    engagedSince := engSince cfg s now d }

end Sketch4

namespace Sketch4

/-- C4 counterexample: starting from the initial NotEngaged state, a
single update at time 1000 on which isDrawing has just become true makes
isEngaged true immediately: 0 ms have elapsed since isDrawing became
true, strictly less than engageRequireMs = 200 ms, refuting the claim
that the machine waits for at least 200 ms of continuous drawing. -/
theorem C4_counterexample :
    engInit.isEngaged = false ∧ engInit.wasDrawing = false ∧
    (engStep defaultEngSettings engInit 1000 true).isEngaged = true ∧
    (1000 : ℚ) - (engStep defaultEngSettings engInit 1000 true).lastDrawingTrue = 0 ∧
    (0 : ℚ) < defaultEngSettings.engageRequireMs := by
  refine ⟨rfl, rfl, ?_, ?_, by norm_num [defaultEngSettings]⟩ <;>
    norm_num [engStep, engEngaged, engLastTrue, engInit, defaultEngSettings]

/-- C4 amended: from NotEngaged, the machine transitions to Engaged on an
update exactly when isDrawing is true and at most engageRequireMs has
elapsed since isDrawing last became true (so in particular it engages
immediately on the update where drawing starts). -/
theorem C4_engage_within_require (cfg : EngSettings) (s : EngState) (now : ℚ) (d : Bool)
    (h : s.isEngaged = false) :
    (engStep cfg s now d).isEngaged = true ↔
      d = true ∧
        now - (engStep cfg s now d).lastDrawingTrue ≤ cfg.engageRequireMs := by
  show engEngaged cfg s now d = true ↔ d = true ∧ now - engLastTrue s now d ≤ cfg.engageRequireMs
  unfold engEngaged
  rw [h]
  cases d with
  | false => simp
  | true => simp

/-- Witness for the amended C4 at the initial state and time 1000. -/
theorem C4_engage_within_require_witness :
    engInit.isEngaged = false ∧
    ((engStep defaultEngSettings engInit 1000 true).isEngaged = true ↔
      true = true ∧
        (1000 : ℚ) - (engStep defaultEngSettings engInit 1000 true).lastDrawingTrue ≤
          defaultEngSettings.engageRequireMs) :=
  ⟨rfl, C4_engage_within_require defaultEngSettings engInit 1000 true rfl⟩

/-- C5: once Engaged, the machine stays Engaged while isDrawing remains
true, and it only transitions to NotEngaged when isDrawing is false and
strictly more than engagementGraceMs has elapsed since isDrawing last
went false. -/
theorem C5_engaged_grace (cfg : EngSettings) (s : EngState) (now : ℚ) (d : Bool)
    (h : s.isEngaged = true) :
    (d = true → (engStep cfg s now d).isEngaged = true) ∧
    ((engStep cfg s now d).isEngaged = false →
      d = false ∧
        cfg.engagementGraceMs < now - (engStep cfg s now d).lastDrawingFalse) := by
  constructor
  · intro hd
    show engEngaged cfg s now d = true
    unfold engEngaged
    rw [h, hd]
    simp
  · intro hoff
    replace hoff : engEngaged cfg s now d = false := hoff
    unfold engEngaged at hoff
    rw [h] at hoff
    cases d with
    | true => simp at hoff
    | false =>
      refine ⟨rfl, ?_⟩
      simp only [Bool.not_true, if_false, decide_eq_false_iff_not, if_true] at hoff
      show cfg.engagementGraceMs < now - engLastFalse s now false
      simp only [Bool.ite_eq_false_distrib, decide_eq_false_iff_not] at hoff
      exact lt_of_not_le (by simpa using hoff)

/-- A concrete engaged state used by the C5 witness. -/
def engSample : EngState :=
  { isEngaged := true, wasDrawing := true,
    lastDrawingTrue := 0, lastDrawingFalse := 0, engagedSince := 0 }

/-- Witness for C5 at a concrete engaged state and time 500. -/
theorem C5_engaged_grace_witness :
    (true = true → (engStep defaultEngSettings engSample 500 true).isEngaged = true) ∧
    ((engStep defaultEngSettings engSample 500 true).isEngaged = false →
      true = false ∧
        defaultEngSettings.engagementGraceMs <
          (500 : ℚ) - (engStep defaultEngSettings engSample 500 true).lastDrawingFalse) :=
  C5_engaged_grace defaultEngSettings engSample 500 true rfl

end Sketch4

namespace Sketch4

/-- One experiment record (currentExperiment in thing.js); filters are
identified by their candidate names.  The startTime and isRetest fields
play no role in scoring and are omitted. -/
structure Experiment where
  filters : List String
  duration : ℚ
  focusTimeAccumulator : ℚ
  engagedTime : ℚ
  drawingTime : ℚ
  steadyTime : ℚ
deriving DecidableEq, Repr

/-- The names of the 8 filterCandidates from thing.js. -/
def candidateNames : List String :=
  ["1kHz-1.05kHz", "300-310Hz", "450-465Hz", "2kHz-2.1kHz",
   "750-780Hz", "3.5kHz-3.6kHz", "150-165Hz", "5kHz-5.2kHz"]

/-- Persisted filter experiment state (userPreferences.filterExperiments
in thing.js).  The scores object is an association list in key insertion
order; activeFilters is kept as the list of filter names. -/
structure FilterExperimentState where
  tested : List String
  currentExperiment : Option Experiment
  scores : List (String × ℤ)
  activeFilters : List String
deriving DecidableEq, Repr

/-- Fresh filterExperiments state from loadUserPreferences defaults. -/
def initFilterExperiments : FilterExperimentState :=
  { tested := [], currentExperiment := none, scores := [], activeFilters := [] }

/-- Cumulative score of a filter name, 0 when absent (the JS falsy
initialisation in endFilterExperiment). -/
def scoreOf : List (String × ℤ) → String → ℤ
  | [], _ => 0
  | p :: rest, name => if p.1 = name then p.2 else scoreOf rest name

/-- Write a score for a name into the object: update in place when the
key exists, append otherwise. -/
def setScore (scores : List (String × ℤ)) (name : String) (v : ℤ) : List (String × ℤ) :=
  if scores.any (fun p => decide (p.1 = name)) then
    scores.map (fun p => if p.1 = name then (p.1, v) else p)
  else scores ++ [(name, v)]

/-- The per-filter score update of endFilterExperiment: add the
effectiveness score to the cumulative score and clamp to [-200, 200]. -/
def applyScoreDelta (scores : List (String × ℤ)) (name : String) (delta : ℤ) :
    List (String × ℤ) :=
  setScore scores name (clampInt (scoreOf scores name + delta) (-200) 200)

/-- updateActiveFilters from thing.js: every scores key with value ≥ 50
that names a filter candidate, in scores order. -/
def updateActiveFilters (scores : List (String × ℤ)) : List String :=
  (scores.filter (fun p => decide (50 ≤ p.2) && decide (p.1 ∈ candidateNames))).map Prod.fst

/-- The effectiveness score of endFilterExperiment in thing.js,
computed from the accumulated experiment metrics and clamped
to [-10, 10]. -/
def computeEffectivenessScore (e : Experiment) : ℤ :=
  let avgFocusLevel := e.focusTimeAccumulator / e.duration
  let engagedFrac := e.engagedTime / e.duration
  let drawingFrac := e.drawingTime / e.duration
  let steadyFrac := e.steadyTime / e.duration
  let raw : ℤ :=
    if drawingFrac > 0.3 ∧ engagedFrac > 0.3 then
      if avgFocusLevel > 0.7 ∧ steadyFrac > 0.5 then
        8 + jsRound ((avgFocusLevel - 0.7) * 6.67)
      else if avgFocusLevel > 0.5 then
        3 + jsRound ((avgFocusLevel - 0.5) * 20)
      else if avgFocusLevel < 0.4 then
        -10 + jsRound ((avgFocusLevel - 0.2) * 35)
      else
        jsRound ((avgFocusLevel - 0.4) * 20)
    else if drawingFrac < 0.1 ∧ engagedFrac < 0.2 then 0
    else if engagedFrac > 0.5 then 2 else -1
  clampInt raw (-10) 10

/-- The body of endFilterExperiment from thing.js, as a function of the
current experiment slot: with no experiment or with duration < 5 the
call returns with no change at all; otherwise the effectiveness score is
folded into the cumulative scores of the tested filters, the tested list
is extended, activeFilters is recomputed, and the experiment slot is
cleared. -/
def concludeExperiment (st : FilterExperimentState) : Option Experiment → FilterExperimentState
  | none => st
  | some e =>
    if e.duration < 5 then st
    else
      let score := computeEffectivenessScore e
      let scores := e.filters.foldl (fun acc name => applyScoreDelta acc name score) st.scores
      let tested := e.filters.foldl
        (fun acc name => if acc.contains name then acc else acc ++ [name]) st.tested
      { tested := tested
        currentExperiment := none
        scores := scores
        activeFilters := updateActiveFilters scores }

/-- endFilterExperiment itself reads the experiment slot of the state. -/
def endFilterExperiment (st : FilterExperimentState) : FilterExperimentState :=
  concludeExperiment st st.currentExperiment

/-- A sequence of experiment conclusions: before each call the
experiment slot holds whatever the scheduler and the per-tick
accumulation left there (possibly nothing); none of those writes touch
scores, tested or activeFilters. -/
def concludeAll (st : FilterExperimentState) (es : List (Option Experiment)) :
    FilterExperimentState :=
  es.foldl (fun s oe => endFilterExperiment { s with currentExperiment := oe }) st

end Sketch4

namespace Sketch4

/-- An experiment with accumulated duration 3 (< 5). -/
def shortExp : Experiment :=
  { filters := ["1kHz-1.05kHz"], duration := 3, focusTimeAccumulator := 2,
    engagedTime := 1, drawingTime := 1, steadyTime := 1 }

/-- A state holding the short experiment. -/
def shortState : FilterExperimentState :=
  { tested := [], currentExperiment := some shortExp, scores := [], activeFilters := [] }

/-- C6 counterexample: concluding an experiment with duration 3 < 5
applies no score delta, but it also does NOT discard the experiment
record: currentExperiment is left in place (still the same experiment),
refuting the claim that the record does not remain. -/
theorem C6_counterexample :
    shortExp.duration < 5 ∧
    (endFilterExperiment shortState).scores = shortState.scores ∧
    (endFilterExperiment shortState).currentExperiment = some shortExp := by
  have hred : endFilterExperiment shortState = shortState := by
    unfold endFilterExperiment shortState concludeExperiment
    norm_num [shortExp]
  refine ⟨by norm_num [shortExp], by rw [hred], by rw [hred]; rfl⟩

/-- C6 amended: concluding an experiment with accumulated duration < 5
is a complete no-op: no score delta is applied and no error is
surfaced, but the experiment record is left in place (the state,
currentExperiment included, is unchanged). -/
theorem C6_short_experiment_kept (st : FilterExperimentState) (e : Experiment)
    (hcur : st.currentExperiment = some e) (hd : e.duration < 5) :
    endFilterExperiment st = st := by
  unfold endFilterExperiment
  rw [hcur]
  simp only [concludeExperiment]
  rw [if_pos hd]

/-- Witness for the amended C6 at the concrete short experiment. -/
theorem C6_short_experiment_kept_witness :
    shortState.currentExperiment = some shortExp ∧ shortExp.duration < 5 ∧
    endFilterExperiment shortState = shortState :=
  ⟨rfl, by norm_num [shortExp],
   C6_short_experiment_kept shortState shortExp rfl (by norm_num [shortExp])⟩

/-- The experiment of the scoring scenario: duration 25, focus
accumulator 25*0.8, engaged 25*0.5, drawing 25*0.5, steady 25*0.6. -/
def scenarioExp : Experiment :=
  { filters := ["1kHz-1.05kHz"], duration := 25, focusTimeAccumulator := 25 * 0.8,
    engagedTime := 25 * 0.5, drawingTime := 25 * 0.5, steadyTime := 25 * 0.6 }

/-- C2: for an experiment with duration ≥ 5, the effectiveness score is
the priority-ordered policy of endFilterExperiment, clamped to
[-10, 10]; and the scoring scenario evaluates to 9. -/
theorem C2_effectiveness_policy (e : Experiment) (hd : 5 ≤ e.duration) :
    computeEffectivenessScore e =
      clampInt
        (if e.drawingTime / e.duration > 0.3 ∧ e.engagedTime / e.duration > 0.3 then
          if e.focusTimeAccumulator / e.duration > 0.7 ∧ e.steadyTime / e.duration > 0.5 then
            8 + jsRound ((e.focusTimeAccumulator / e.duration - 0.7) * 6.67)
          else if e.focusTimeAccumulator / e.duration > 0.5 then
            3 + jsRound ((e.focusTimeAccumulator / e.duration - 0.5) * 20)
          else if e.focusTimeAccumulator / e.duration < 0.4 then
            -10 + jsRound ((e.focusTimeAccumulator / e.duration - 0.2) * 35)
          else jsRound ((e.focusTimeAccumulator / e.duration - 0.4) * 20)
        else if e.drawingTime / e.duration < 0.1 ∧ e.engagedTime / e.duration < 0.2 then 0
        else if e.engagedTime / e.duration > 0.5 then 2 else -1)
        (-10) 10 ∧
    computeEffectivenessScore scenarioExp = 9 := by
  constructor
  · rfl
  · have h1 : jsRound ((667 : ℚ) / 1000) = 1 := by
      unfold jsRound
      rw [Int.floor_eq_iff]
      norm_num
    norm_num [computeEffectivenessScore, scenarioExp, clampInt, h1, max_def, min_def]

/-- Witness for C2 at the scenario experiment. -/
theorem C2_effectiveness_policy_witness :
    (5 : ℚ) ≤ scenarioExp.duration ∧
    (computeEffectivenessScore scenarioExp =
      clampInt
        (if scenarioExp.drawingTime / scenarioExp.duration > 0.3 ∧
            scenarioExp.engagedTime / scenarioExp.duration > 0.3 then
          if scenarioExp.focusTimeAccumulator / scenarioExp.duration > 0.7 ∧
              scenarioExp.steadyTime / scenarioExp.duration > 0.5 then
            8 + jsRound ((scenarioExp.focusTimeAccumulator / scenarioExp.duration - 0.7) * 6.67)
          else if scenarioExp.focusTimeAccumulator / scenarioExp.duration > 0.5 then
            3 + jsRound ((scenarioExp.focusTimeAccumulator / scenarioExp.duration - 0.5) * 20)
          else if scenarioExp.focusTimeAccumulator / scenarioExp.duration < 0.4 then
            -10 + jsRound ((scenarioExp.focusTimeAccumulator / scenarioExp.duration - 0.2) * 35)
          else jsRound ((scenarioExp.focusTimeAccumulator / scenarioExp.duration - 0.4) * 20)
        else if scenarioExp.drawingTime / scenarioExp.duration < 0.1 ∧
            scenarioExp.engagedTime / scenarioExp.duration < 0.2 then 0
        else if scenarioExp.engagedTime / scenarioExp.duration > 0.5 then 2 else -1)
        (-10) 10 ∧
    computeEffectivenessScore scenarioExp = 9) :=
  ⟨by norm_num [scenarioExp],
   C2_effectiveness_policy scenarioExp (by norm_num [scenarioExp])⟩

end Sketch4

namespace Sketch4

/-- Well-formedness of the scores object: its keys are distinct (a JS
object cannot hold a key twice) and every stored score is within
[-200, 200]. -/
def ScoresWF (scores : List (String × ℤ)) : Prop :=
  (scores.map Prod.fst).Nodup ∧ ∀ p ∈ scores, -200 ≤ p.2 ∧ p.2 ≤ 200

/-- The full C1 invariant on the persisted experiment state. -/
def StateWF (st : FilterExperimentState) : Prop :=
  ScoresWF st.scores ∧
  ∀ n, n ∈ st.activeFilters ↔ n ∈ candidateNames ∧ 50 ≤ scoreOf st.scores n

lemma setScore_map_fst (scores : List (String × ℤ)) (name : String) (v : ℤ) :
    (setScore scores name v).map Prod.fst =
      if scores.any (fun p => decide (p.1 = name)) then scores.map Prod.fst
      else scores.map Prod.fst ++ [name] := by
  unfold setScore
  split_ifs with h
  · rw [List.map_map]
    refine List.map_congr_left (fun p hp => ?_)
    by_cases hb : p.1 = name
    · simp [hb]
    · simp [hb]
  · simp

lemma not_mem_keys_of_any_eq_false (scores : List (String × ℤ)) (name : String)
    (h : scores.any (fun p => decide (p.1 = name)) = false) :
    name ∉ scores.map Prod.fst := by
  intro hmem
  rcases List.mem_map.mp hmem with ⟨p, hp, hfst⟩
  have : scores.any (fun p => decide (p.1 = name)) = true :=
    List.any_eq_true.mpr ⟨p, hp, by simp [hfst]⟩
  rw [this] at h
  cases h

lemma setScore_nodup {scores : List (String × ℤ)} {name : String} {v : ℤ}
    (h : (scores.map Prod.fst).Nodup) :
    ((setScore scores name v).map Prod.fst).Nodup := by
  rw [setScore_map_fst]
  split_ifs with hp
  · exact h
  · have hnm := not_mem_keys_of_any_eq_false scores name (Bool.eq_false_iff.mpr hp)
    simp [List.nodup_append, List.disjoint_singleton, h, hnm]

lemma mem_setScore {scores : List (String × ℤ)} {name : String} {v : ℤ} {p : String × ℤ}
    (hp : p ∈ setScore scores name v) : p ∈ scores ∨ p.2 = v := by
  unfold setScore at hp
  split_ifs at hp with h
  · rcases List.mem_map.mp hp with ⟨q, hq, hfq⟩
    by_cases hb : q.1 = name
    · right
      rw [← hfq]
      simp [hb]
    · left
      rw [← hfq]
      simpa [hb] using hq
  · rcases List.mem_append.mp hp with h1 | h1
    · exact Or.inl h1
    · right
      have hpv : p = (name, v) := by simpa using h1
      rw [hpv]

lemma clampInt_bounds (x lo hi : ℤ) (h : lo ≤ hi) :
    lo ≤ clampInt x lo hi ∧ clampInt x lo hi ≤ hi :=
  ⟨le_min (le_max_right x lo) h, min_le_right _ _⟩

lemma applyScoreDelta_wf {scores : List (String × ℤ)} {name : String} {delta : ℤ}
    (h : ScoresWF scores) : ScoresWF (applyScoreDelta scores name delta) := by
  refine ⟨setScore_nodup h.1, ?_⟩
  intro p hp
  rcases mem_setScore hp with h1 | h1
  · exact h.2 p h1
  · rw [h1]
    exact clampInt_bounds _ _ _ (by norm_num)

lemma foldl_applyScoreDelta_wf (names : List String) (delta : ℤ) :
    ∀ scores, ScoresWF scores →
      ScoresWF (names.foldl (fun acc name => applyScoreDelta acc name delta) scores) := by
  induction names with
  | nil => exact fun s h => h
  | cons n ns ih => exact fun s h => ih _ (applyScoreDelta_wf h)

lemma scoreOf_eq_of_mem {scores : List (String × ℤ)} {n : String} {s : ℤ}
    (h : (scores.map Prod.fst).Nodup) (hm : (n, s) ∈ scores) :
    scoreOf scores n = s := by
  induction scores with
  | nil => cases hm
  | cons q qs ih =>
    rw [List.map_cons, List.nodup_cons] at h
    rcases List.mem_cons.mp hm with hq | hq
    · rw [← hq]
      simp [scoreOf]
    · have hne : q.1 ≠ n := by
        intro hb
        exact h.1 (hb ▸ List.mem_map.mpr ⟨(n, s), hq, rfl⟩)
      simp only [scoreOf]
      rw [if_neg hne]
      exact ih h.2 hq

lemma scoreOf_mem_of_ne_zero {scores : List (String × ℤ)} {n : String}
    (h : scoreOf scores n ≠ 0) : (n, scoreOf scores n) ∈ scores := by
  induction scores with
  | nil => exact absurd rfl h
  | cons q qs ih =>
    by_cases hq : q.1 = n
    · have hs : scoreOf (q :: qs) n = q.2 := by simp only [scoreOf]; rw [if_pos hq]
      rw [hs]
      exact List.mem_cons.mpr (Or.inl (by rw [← hq]))
    · have hs : scoreOf (q :: qs) n = scoreOf qs n := by simp only [scoreOf]; rw [if_neg hq]
      rw [hs] at h ⊢
      exact List.mem_cons_of_mem q (ih h)

lemma mem_updateActiveFilters {scores : List (String × ℤ)}
    (h : (scores.map Prod.fst).Nodup) (n : String) :
    n ∈ updateActiveFilters scores ↔ n ∈ candidateNames ∧ 50 ≤ scoreOf scores n := by
  unfold updateActiveFilters
  rw [List.mem_map]
  constructor
  · rintro ⟨p, hp, hfst⟩
    rw [List.mem_filter] at hp
    obtain ⟨hmem, hcond⟩ := hp
    simp only [Bool.and_eq_true, decide_eq_true_eq] at hcond
    have hpp : (p.1, p.2) ∈ scores := by simpa using hmem
    have heq : scoreOf scores p.1 = p.2 := scoreOf_eq_of_mem h hpp
    rw [← hfst]
    exact ⟨hcond.2, heq ▸ hcond.1⟩
  · rintro ⟨hc, hs⟩
    have hne : scoreOf scores n ≠ 0 := by omega
    refine ⟨(n, scoreOf scores n), ?_, rfl⟩
    rw [List.mem_filter]
    refine ⟨scoreOf_mem_of_ne_zero hne, ?_⟩
    simp only [Bool.and_eq_true, decide_eq_true_eq]
    exact ⟨hs, hc⟩

lemma initFilterExperiments_wf : StateWF initFilterExperiments := by
  refine ⟨⟨List.nodup_nil, by simp [initFilterExperiments]⟩, ?_⟩
  intro n
  simp only [initFilterExperiments, List.not_mem_nil, false_iff, not_and]
  intro hc
  show ¬(50 ≤ scoreOf [] n)
  norm_num [scoreOf]

lemma concludeExperiment_wf (st : FilterExperimentState) (oe : Option Experiment)
    (h : StateWF st) : StateWF (concludeExperiment st oe) := by
  cases oe with
  | none => exact h
  | some e =>
    simp only [concludeExperiment]
    split_ifs with hd
    · exact h
    · have hwf := foldl_applyScoreDelta_wf e.filters (computeEffectivenessScore e)
        st.scores h.1
      exact ⟨hwf, fun n => mem_updateActiveFilters hwf.1 n⟩

lemma endFilterExperiment_wf (st : FilterExperimentState) (h : StateWF st) :
    StateWF (endFilterExperiment st) :=
  concludeExperiment_wf st st.currentExperiment h

lemma concludeAll_wf (es : List (Option Experiment)) :
    ∀ st, StateWF st → StateWF (concludeAll st es) := by
  induction es with
  | nil => exact fun st h => h
  | cons oe es ih =>
    intro st h
    exact ih _ (endFilterExperiment_wf _ ⟨h.1, h.2⟩)

/-- C1: after any sequence of experiment conclusions starting from the
fresh state, every stored score lies within [-200, 200], and
activeFilters is exactly the set of filter candidates whose cumulative
score is at least 50. -/
theorem C1_experiment_invariant (es : List (Option Experiment)) :
    (∀ p ∈ (concludeAll initFilterExperiments es).scores, -200 ≤ p.2 ∧ p.2 ≤ 200) ∧
    (∀ n, n ∈ (concludeAll initFilterExperiments es).activeFilters ↔
      n ∈ candidateNames ∧ 50 ≤ scoreOf (concludeAll initFilterExperiments es).scores n) := by
  have h := concludeAll_wf es initFilterExperiments initFilterExperiments_wf
  exact ⟨h.1.2, h.2⟩

end Sketch4
